import Mathlib

/-!
Verification development for the Siri-billing-app desktop shell
(`src/src-tauri/src/main.rs`).

The program is a Tauri shell that spawns a backend sidecar process, stores
its handle in `child_handle : Arc<Mutex<Option<CommandChild>>>`, relays its
output to the log, and tears it down from two independent event handlers
(window `CloseRequested` and `RunEvent::Exit`).  The relay task clears the
handle when the event stream ends.

We embed the handle container as `Option Nat` (the stored process id), and
each handler as a pure function from the handle state to a new state plus an
observable trace of the OS-level effects it performs (HTTP shutdown post,
grace sleep, force-kill command).  Peripheral commands (`list_printers`,
`print_text`, `check_for_updates`, `cleanup_old_logs`) are embedded as pure
functions over the results of their external calls.
-/

/- ============================================================
   Sidecar lifecycle: the shared handle and its three mutators
   ============================================================ -/

/-- Outcome of the blocking HTTP POST to `http://localhost:8080/api/shutdown`
(`client.post(...).send()` in the `CloseRequested` handler).  `ok` carries the
HTTP status code of a completed response; `err` carries the error message of a
failed send (timeouts included: the client is built with a 5-second timeout,
and a timeout surfaces as the `Err` arm of `send()`). -/
inductive HttpResult where
  | ok (status : Nat)
  | err (msg : String)
deriving DecidableEq, Repr

/-- One observable OS-level effect of a shutdown handler.
`httpPost pid` is the shutdown POST sent while the stored child with id `pid`
is present; `graceSleep` is `thread::sleep(Duration::from_secs(5))`;
`forceKill pid` is the platform force-termination command
(`taskkill /PID pid /T /F` on Windows, `kill -9 pid` elsewhere). -/
inductive GsAction where
  | httpPost (pid : Nat)
  | graceSleep
  | forceKill (pid : Nat)
deriving DecidableEq, Repr

/-- Result of running a shutdown handler: the handle container's state after
the handler and the ordered trace of effects it issued. -/
structure GsResult where
  handle : Option Nat
  trace : List GsAction
deriving DecidableEq, Repr

/-- The `WindowEvent::CloseRequested` handler (main.rs lines 312-367),
run sequentially from handle state `h`:
* STEP 1: `if let Some(child) = child_handle.lock().unwrap().as_ref()` —
  when the handle is present, read its pid and send the HTTP shutdown POST;
  the response `r` is only logged (`Ok` at info level, `Err` at warn level)
  and influences nothing else.
* STEP 2: unconditionally sleep 5 seconds.
* STEP 3: `if let Some(child) = child_handle.lock().unwrap().take()` —
  take the handle; when it was present, run the force-kill command against
  its pid (the command's exit status is discarded via `let _ =`).
The `take()` in step 3 leaves the container empty in every case. -/
def gracefulShutdown (h : Option Nat) (r : HttpResult) : GsResult :=
  let step1 : List GsAction :=
    match h with
    | some pid =>
        match r with
        | HttpResult.ok _ => [GsAction.httpPost pid]
        | HttpResult.err _ => [GsAction.httpPost pid]
    | none => []
  let step2 : List GsAction := [GsAction.graceSleep]
  match h with
  | some pid => ⟨none, step1 ++ step2 ++ [GsAction.forceKill pid]⟩
  | none => ⟨none, step1 ++ step2⟩

/-- The `RunEvent::Exit` handler (main.rs lines 392-420):
`if let Some(child) = child_handle.lock().unwrap().take()` — take the handle
and, when it was present, run the same force-kill command against its pid.
No HTTP preamble and no sleep. -/
def finalCleanup (h : Option Nat) : GsResult :=
  match h with
  | some pid => ⟨none, [GsAction.forceKill pid]⟩
  | none => ⟨none, []⟩

/- ============================================================
   Micro-step interleaving model for the at-most-once invariant
   ============================================================ -/

/-- One atomic access to the shared handle container, at the granularity at
which the `Mutex` serialises them.  Each constructor is one critical section
of the source (plus the effect the surrounding code performs with what it
read):
* `httpProbe` — CloseRequested step 1: lock, read the handle; if present,
  send the shutdown POST.  Does not change the container and kills nothing.
* `graceSleep` — CloseRequested step 2: no container access, no kill.
* `takeKill` — CloseRequested step 3 and the `RunEvent::Exit` handler:
  lock, `take()` the handle; run the force-kill command only when the taken
  value was present.
* `clearHandle` — the relay task after its event stream ends (main.rs
  line 294): lock, `take()` the handle, and discard it without any kill. -/
inductive LifeOp where
  | httpProbe
  | graceSleep
  | takeKill
  | clearHandle
deriving DecidableEq, Repr

/-- Effect of one atomic container access: new container state and the list
of pids against which a force-termination OS command is issued (empty or a
singleton). -/
def applyOp : LifeOp → Option Nat → Option Nat × List Nat
  | LifeOp.httpProbe, h => (h, [])
  | LifeOp.graceSleep, h => (h, [])
  | LifeOp.takeKill, some pid => (none, [pid])
  | LifeOp.takeKill, none => (none, [])
  | LifeOp.clearHandle, _ => (none, [])

/-- Run a sequence of atomic container accesses, accumulating every
force-termination call issued. -/
def runOps : List LifeOp → Option Nat → Option Nat × List Nat
  | [], h => (h, [])
  | op :: rest, h =>
    let step := applyOp op h
    let tail := runOps rest step.1
    (tail.1, step.2 ++ tail.2)

/-- The three lifecycle events whose handlers touch the shared handle. -/
inductive LifeEvent where
  | closeRequested
  | appExit
  | relayEnd
deriving DecidableEq, Repr

/-- The sequence of atomic container accesses each event's handler performs
(in source order).  A concurrent execution of any subset of the events is an
interleaving of these sequences, hence some `List LifeOp`. -/
def eventOps : LifeEvent → List LifeOp
  | LifeEvent.closeRequested => [LifeOp.httpProbe, LifeOp.graceSleep, LifeOp.takeKill]
  | LifeEvent.appExit => [LifeOp.takeKill]
  | LifeEvent.relayEnd => [LifeOp.clearHandle]

theorem runOps_none (ops : List LifeOp) : runOps ops none = (none, []) := by
  induction ops with
  | nil => rfl
  | cons op rest ih => cases op <;> simp [runOps, applyOp, ih]

theorem runOps_kills_le (ops : List LifeOp) (h : Option Nat) :
    (runOps ops h).2.length ≤ (match h with | none => 0 | some _ => 1) := by
  induction ops generalizing h with
  | nil => cases h <;> simp [runOps]
  | cons op rest ih =>
    cases h with
    | none => simp [runOps_none]
    | some pid =>
      cases op
      · simpa [runOps, applyOp] using ih (some pid)
      · simpa [runOps, applyOp] using ih (some pid)
      · simp [runOps, applyOp, runOps_none]
      · simp [runOps, applyOp, runOps_none]

/- ============================================================
   Lock-holding trace of the CloseRequested handler
   ============================================================ -/

/-- One step of the `CloseRequested` handler at the granularity of individual
statements, for reasoning about how long the `Mutex` around `child_handle`
is held. -/
inductive CloseStep where
  | readPid (pid : Nat)
  | readAbsent
  | httpSend (pid : Nat)
  | sleepGrace
  | takeHandle (taken : Option Nat)
  | killCmd (pid : Nat)
deriving DecidableEq, Repr

/-- A handler step together with whether the `child_handle` mutex guard is
alive while the step executes. -/
structure LockedStep where
  step : CloseStep
  lockHeld : Bool
deriving DecidableEq, Repr

/-- The statement-level trace of the `CloseRequested` handler from handle
state `h`, each step annotated with whether the `child_handle` mutex is held
during it.

Lock lifetimes follow Rust temporary-scope rules for the two `if let`
statements:
* Step 1 is `if let Some(child) = child_handle.lock().unwrap().as_ref() { ... }`.
  The `MutexGuard` produced by `lock().unwrap()` is a temporary of the
  scrutinee, and `child : &CommandChild` borrows from it, so the guard lives
  until the end of the whole `if let` — i.e. across the blocking
  `client.post("http://localhost:8080/api/shutdown").send()` inside the body.
  (Under pre-2024 editions the scrutinee temporary is dropped at the end of
  the `if let` in all cases; under the 2024 edition this borrow through the
  guard would not compile at all, so in the code as compiled the guard is
  alive during the HTTP send.)
* Step 2, `thread::sleep(Duration::from_secs(5))`, is a plain statement with
  no guard temporary in scope: the mutex is not held.
* Step 3 is `if let Some(child) = child_handle.lock().unwrap().take() { ... }`:
  the guard temporary again lives to the end of the `if let`, so it is held
  across the `taskkill`/`kill` command in the body. -/
def closeHandlerSteps (h : Option Nat) : List LockedStep :=
  (match h with
   | some pid => [⟨CloseStep.readPid pid, true⟩, ⟨CloseStep.httpSend pid, true⟩]
   | none => [⟨CloseStep.readAbsent, true⟩]) ++
  [⟨CloseStep.sleepGrace, false⟩] ++
  (match h with
   | some pid => [⟨CloseStep.takeHandle (some pid), true⟩, ⟨CloseStep.killCmd pid, true⟩]
   | none => [⟨CloseStep.takeHandle none, true⟩])

/-- Whether a handler step is one of the two long blocking operations the
spec singles out: the HTTP shutdown call and the 5-second grace sleep. -/
def CloseStep.isBlocking : CloseStep → Bool
  | CloseStep.httpSend _ => true
  | CloseStep.sleepGrace => true
  | _ => false

/- ============================================================
   Startup: sidecar spawn and the setup hook
   ============================================================ -/

/-- Result of application startup.  `running pid` models the app entering its
event loop with the backend spawned under process id `pid`; `panicked msg`
models the process aborting via a panic with message `msg`. -/
inductive AppStart where
  | running (pid : Nat)
  | panicked (msg : String)
deriving DecidableEq, Repr

/-- Whether startup aborted the whole application. -/
def AppStart.isFatal : AppStart → Bool
  | AppStart.running _ => false
  | AppStart.panicked _ => true

/-- The setup hook's sidecar section (main.rs lines 263-270):
`let cmd = handle.shell().sidecar("Siribilling-backend")?;`
`let (mut rx, command_child) = cmd.spawn()?;`
Both `?` operators propagate their error out of the setup closure.
`sidecarCmd` is the result of resolving the sidecar command, `spawn` the
result of spawning it (carrying the child's pid on success). -/
def setupSidecar (sidecarCmd : Except String Unit) (spawn : Except String Nat) :
    Except String Nat :=
  match sidecarCmd with
  | Except.error e => Except.error e
  | Except.ok _ =>
    match spawn with
    | Except.error e => Except.error e
    | Except.ok pid => Except.ok pid

/-- `main`'s build-and-run sequence around the setup hook:
`tauri::Builder::default()....setup(...).build(...).expect("error building app").run(...)`.
This is Tauri v2: the user setup hook does not run inside `Builder::build`
— `build(...)` succeeds and line 387's `.expect("error building app")`
passes.  The hook runs inside `.run(...)`, on the event loop's `Ready`
event, and when it returns `Err(e)` the framework aborts the process there
via `panic!("Failed to setup app: {e}")`.  So a spawn or locate failure
propagated by the hook's `?` operators still kills the whole application;
only the abort site and panic message come from `run`'s `Ready` handling
rather than from `expect`. -/
def appStart (sidecarCmd : Except String Unit) (spawn : Except String Nat) :
    AppStart :=
  match setupSidecar sidecarCmd spawn with
  | Except.ok pid => AppStart.running pid
  | Except.error e => AppStart.panicked ("Failed to setup app: " ++ e)

/- ============================================================
   String helpers mirroring the Rust std functions used
   ============================================================ -/

/-- The whitespace test used by Rust's `str::trim` restricted to the ASCII
whitespace characters relevant here (`trim` strips Unicode `White_Space`;
all characters in play are ASCII). -/
def isWsChar (c : Char) : Bool :=
  c = ' ' || c = '\t' || c = '\r' || c = '\n'

/-- `str::trim` on a character list: strip leading and trailing whitespace. -/
def trimChars (cs : List Char) : List Char :=
  ((cs.dropWhile isWsChar).reverse.dropWhile isWsChar).reverse

/-- `str::trim`. -/
def rustTrim (s : String) : String :=
  String.mk (trimChars s.data)

/-- `str::to_lowercase` (character-wise; the strings in play are ASCII, where
`to_lowercase` agrees with per-character lowering). -/
def rustToLower (s : String) : String :=
  String.mk (s.data.map Char.toLower)

/-- Helper for `rustLines`: split the character stream at `'\n'`, stripping
one `'\r'` before each `'\n'` (i.e. treating `"\r\n"` as one terminator, as
`str::lines` does).  `acc` holds the current line's characters reversed.
A final unterminated segment is emitted as a line unless it is empty. -/
def linesAux : List Char → List Char → List (List Char)
  | [], acc => if acc.isEmpty then [] else [acc.reverse]
  | '\n' :: rest, acc =>
    (match acc with
     | '\r' :: acc' => acc'.reverse
     | _ => acc.reverse) :: linesAux rest []
  | c :: rest, acc => linesAux rest (c :: acc)

/-- `str::lines`: split at `"\n"` or `"\r\n"`, with the final terminator
optional. -/
def rustLines (s : String) : List String :=
  (linesAux s.data []).map String.mk

/- ============================================================
   list_printers (Windows branch, main.rs lines 110-151)
   ============================================================ -/

/-- Result of running an external command: its captured stdout and whether
its exit status was success.  `Except.error` is the `io::Error` arm of
`Command::output()` (the program could not be launched at all). -/
abbrev CmdResult := Except String (String × Bool)

/-- The parse applied to the primary PowerShell query's stdout
(`Get-CimInstance Win32_Printer | Select-Object -ExpandProperty Name`):
`lines().map(trim).filter(non-empty)`. -/
def parsePrimaryPrinters (stdout : String) : List String :=
  ((rustLines stdout).map rustTrim).filter (fun line => line ≠ "")

/-- The parse applied to the fallback `wmic printer get name` stdout:
`lines().map(trim).filter(|l| !l.is_empty() && l.to_lowercase() != "name")`. -/
def parseFallbackPrinters (stdout : String) : List String :=
  ((rustLines stdout).map rustTrim).filter
    (fun line => line ≠ "" && rustToLower line ≠ "name")

/-- The Windows branch of `list_printers`, as a function of the two external
command invocations it can make.  `primary` is the PowerShell CIM query;
`fallback` is the `wmic` query, consulted only when the primary parse is
empty.  Mirrors main.rs lines 110-151 including the final
`printers.is_empty() && !output.status.success()` check against the
*primary* command's status. -/
def list_printers (primary : CmdResult) (fallback : Unit → CmdResult) :
    Except String (List String) :=
  match primary with
  | Except.error e => Except.error ("Failed to list printers: " ++ e)
  | Except.ok (stdout, success) =>
    let printers := parsePrimaryPrinters stdout
    if printers.isEmpty then
      match fallback () with
      | Except.error e => Except.error ("Failed to list printers (wmic): " ++ e)
      | Except.ok (fstdout, _) =>
        let printers := parseFallbackPrinters fstdout
        if printers.isEmpty && !success then
          Except.error "Failed to list printers"
        else
          Except.ok printers
    else
      Except.ok printers

/- ============================================================
   print_text (Windows branch, main.rs lines 160-194)
   ============================================================ -/

/-- Result of `print_text`: the command's return value together with whether
`fs::remove_file` was invoked on the temporary receipt file. -/
structure PrintOutcome where
  result : Except String Unit
  tempRemoved : Bool
deriving Repr

/-- The Windows branch of `print_text`, as a function of its two external
effects: `writeRes` is `fs::write(&path, content)`; `pipeline` is the
PowerShell `Get-Content ... | Out-Printer` invocation, whose `Except.ok`
carries `output.status.success()` and whose `Except.error` is the
`io::Error` arm of `Command::output()` (the shell could not be launched).
Source order: write the file; run the pipeline (`?` on launch error);
`let _ = fs::remove_file(&path);`; then fail with `"Silent print failed"`
when the status was non-success. -/
def print_text (writeRes : Except String Unit) (pipeline : Except String Bool) :
    PrintOutcome :=
  match writeRes with
  | Except.error e => ⟨Except.error ("Failed to write print file: " ++ e), false⟩
  | Except.ok _ =>
    match pipeline with
    | Except.error e => ⟨Except.error ("Failed to print: " ++ e), false⟩
    | Except.ok success =>
      if success then ⟨Except.ok (), true⟩
      else ⟨Except.error "Silent print failed", true⟩

/- ============================================================
   check_for_updates (main.rs lines 34-58)
   ============================================================ -/

/-- `check_for_updates`, as a function of its two external calls:
`updater` is `app_handle.updater()`; on its success, `check` is
`updater.check().await`, whose `Ok` payload is `Some version` when an update
exists and `None` otherwise. -/
def check_for_updates (updater : Except String Unit)
    (check : Except String (Option String)) : Except String String :=
  match updater with
  | Except.error e => Except.error ("Failed to get updater: " ++ e)
  | Except.ok _ =>
    match check with
    | Except.ok (some version) => Except.ok ("Update available: " ++ version)
    | Except.ok none => Except.ok "No update available."
    | Except.error e => Except.error ("Failed to check for updates: " ++ e)

/- ============================================================
   cleanup_old_logs (main.rs lines 431-457)
   ============================================================ -/

/-- Helper for `rustExtension`: split a file name's characters at the last
`'.'`, returning the parts before and after it, or `none` when no `'.'`
occurs (mirrors `rsplitn(2, '.')` in Rust's `split_file_at_dot`). -/
def lastDotSplit : List Char → Option (List Char × List Char)
  | [] => none
  | c :: rest =>
    match lastDotSplit rest with
    | some (before, after) => some (c :: before, after)
    | none => if c = '.' then some ([], rest) else none

/-- `Path::extension` on a file name (the entries come from
`fs::read_dir`, whose paths have plain file names): the portion after the
last `'.'`; `none` when there is no `'.'`, when the name is `".."`, or when
the only `'.'` is the leading character (hidden files like `".log"` have no
extension). -/
def rustExtension (name : String) : Option String :=
  if name = ".." then none
  else
    match lastDotSplit name.data with
    | none => none
    | some ([], _) => none
    | some (_, after) => some (String.mk after)

/-- One directory entry as `cleanup_old_logs` observes it: its file name and
whether `path.is_file()` holds (i.e. it is a regular file, not a directory
or other entry kind). -/
structure DirEntry where
  name : String
  isFile : Bool
deriving DecidableEq, Repr

/-- Result of `cleanup_old_logs`: whether the function returned `Ok(())`,
and the names of the entries on which `fs::remove_file` was invoked (the
call's own success or failure is only printed, so a failed removal still
counts as a deletion attempt and does not change the return value). -/
structure CleanupResult where
  ok : Bool
  deleted : List String
deriving DecidableEq, Repr

/-- The entry loop of `cleanup_old_logs`: for each entry, if it is a regular
file and `path.extension()` is `Some(ext)` with `ext == "log"`, invoke
`fs::remove_file` on it; otherwise skip it. -/
def cleanupLoop : List DirEntry → List String
  | [] => []
  | e :: rest =>
    if e.isFile then
      match rustExtension e.name with
      | some ext =>
        if ext = "log" then e.name :: cleanupLoop rest
        else cleanupLoop rest
      | none => cleanupLoop rest
    else cleanupLoop rest

/-- `cleanup_old_logs`, as a function of the logs directory's state:
`none` models `logs_dir.exists()` being false (the function only prints a
note and returns `Ok(())`); `some entries` models an existing directory
whose readable entries are `entries` (the `entries.flatten()` of the
source).  The app-data-dir resolution (`app_handle.path().app_data_dir()?`)
is assumed to succeed, as its failure is unrelated to the directory's
existence. -/
def cleanup_old_logs (logsDir : Option (List DirEntry)) : CleanupResult :=
  match logsDir with
  | none => ⟨true, []⟩
  | some entries => ⟨true, cleanupLoop entries⟩

/- ============================================================
   Claim theorems
   ============================================================ -/

/-- C1: for every sequence of atomic handle accesses — in particular every
interleaving of any subset of the three events {window close-request,
application exit, relay-stream end}, whose handlers' access sequences are
given by `eventOps` — the force-termination OS call is issued at most once;
a killing path that observes the handle absent takes nothing and issues no
termination call, and from an absent handle no sequence ever kills. -/
theorem C1_force_kill_at_most_once :
    (∀ (ops : List LifeOp) (h : Option Nat), (runOps ops h).2.length ≤ 1)
    ∧ (∀ (ops : List LifeOp), (runOps ops none).2 = [])
    ∧ (∀ (es : List LifeEvent) (h : Option Nat),
        (runOps (es.flatMap eventOps) h).2.length ≤ 1)
    ∧ applyOp LifeOp.takeKill none = (none, []) := by
  refine ⟨?_, ?_, ?_, rfl⟩
  · intro ops h
    calc (runOps ops h).2.length
        ≤ (match h with | none => 0 | some _ => 1) := runOps_kills_le ops h
      _ ≤ 1 := by cases h <;> simp
  · intro ops
    simp [runOps_none]
  · intro es h
    calc (runOps (es.flatMap eventOps) h).2.length
        ≤ (match h with | none => 0 | some _ => 1) := runOps_kills_le _ h
      _ ≤ 1 := by cases h <;> simp

/-- C2: after the `CloseRequested` handler runs to completion, the shared
handle container is empty, for every initial handle state and every outcome
of the HTTP shutdown request (completed response of any status, or a failed
send — timeouts and errors both being the `err` arm). -/
theorem C2_graceful_shutdown_clears_handle :
    ∀ (h : Option Nat) (r : HttpResult), (gracefulShutdown h r).handle = none := by
  intro h r
  cases h <;> cases r <;> rfl

/-- C3: the `CloseRequested` handler's effect trace always places the grace
sleep after the HTTP attempt and before the force-kill, the force-kill is
attempted against the stored pid whenever the handle is present, and the
trace does not depend on the HTTP result at all; in particular, with pid
4242 stored and the HTTP POST succeeding (status 200), the force-kill
against 4242 is still attempted after the sleep. -/
theorem C3_unconditional_wait_then_kill :
    (∀ (h : Option Nat) (r : HttpResult),
      (gracefulShutdown h r).trace =
        (h.toList.map GsAction.httpPost) ++ [GsAction.graceSleep] ++
          (h.toList.map GsAction.forceKill))
    ∧ gracefulShutdown (some 4242) (HttpResult.ok 200) =
        ⟨none, [GsAction.httpPost 4242, GsAction.graceSleep, GsAction.forceKill 4242]⟩ := by
  constructor
  · intro h r
    cases h <;> cases r <;> rfl
  · rfl

/-- C4: when the primary PowerShell printer query runs but yields no
parseable printer lines (the "primary enumeration tool absent" situation,
e.g. the PrintManagement facility missing, whatever the query's exit
status) and the `wmic` fallback runs and yields output, `list_printers`
returns `Ok` with exactly the fallback's parsed list: the trimmed non-empty
lines of its stdout with any `"name"`-case-insensitive header line
excluded. -/
theorem C4_list_printers_fallback :
    ∀ (pout : String) (psucc : Bool) (fout : String) (fsucc : Bool),
      parsePrimaryPrinters pout = [] →
      parseFallbackPrinters fout ≠ [] →
      list_printers (Except.ok (pout, psucc)) (fun _ => Except.ok (fout, fsucc)) =
        Except.ok (parseFallbackPrinters fout) := by
  intro pout psucc fout fsucc hp hf
  have hpe : (parsePrimaryPrinters pout).isEmpty = true := by
    simp [List.isEmpty_iff, hp]
  have hfe : (parseFallbackPrinters fout).isEmpty = false := by
    simp [List.isEmpty_iff, hf]
  simp [list_printers, hpe, hfe]

/-- C4 witness: a concrete run — primary query yields empty stdout with a
failing status, fallback yields a header plus two printers — returns the
fallback's parsed list. -/
theorem C4_list_printers_fallback_witness :
    list_printers (Except.ok ("", false))
        (fun _ => Except.ok ("Name  \r\n\r\nHP LaserJet 1020\r\nMicrosoft Print to PDF\r\n", true)) =
      Except.ok ["HP LaserJet 1020", "Microsoft Print to PDF"] := by
  have h := C4_list_printers_fallback "" false
      "Name  \r\n\r\nHP LaserJet 1020\r\nMicrosoft Print to PDF\r\n" true
      (by decide) (by decide)
  rw [h]
  exact congrArg Except.ok (by decide)

/-- C5 counterexample: with the sidecar command resolving but the spawn
failing (`cmd.spawn()` returning an error at a concrete input), startup does
not continue without a backend — the error propagates out of the setup hook
through `?`, and the framework's `Ready`-event setup invocation inside
`.run(...)` aborts the whole application with
`panic!("Failed to setup app: {e}")`. -/
theorem C5_spawn_failure_not_survived :
    appStart (Except.ok ()) (Except.error "program not found") =
      AppStart.panicked "Failed to setup app: program not found"
    ∧ (appStart (Except.ok ()) (Except.error "program not found")).isFatal = true
    ∧ ∀ (pid : Nat),
        appStart (Except.ok ()) (Except.error "program not found") ≠
          AppStart.running pid := by
  refine ⟨rfl, rfl, ?_⟩
  intro pid hcontra
  exact AppStart.noConfusion hcontra

/-- C5 amended: if the Process Host cannot locate the sidecar command or
cannot launch it, the setup hook propagates the error via its `?` operators;
`build(...)` still succeeds and `.expect("error building app")` passes, but
when `.run(...)` invokes the setup hook on the `Ready` event the error makes
the framework panic with `"Failed to setup app: {e}"`, aborting the whole
application — startup does not continue without a backend. -/
theorem C5_spawn_failure_fatal :
    ∀ (e : String) (spawn : Except String Nat),
      appStart (Except.error e) spawn =
        AppStart.panicked ("Failed to setup app: " ++ e)
      ∧ appStart (Except.ok ()) (Except.error e) =
          AppStart.panicked ("Failed to setup app: " ++ e)
      ∧ (appStart (Except.ok ()) (Except.error e)).isFatal = true := by
  intro e spawn
  exact ⟨rfl, rfl, rfl⟩

/-- C6: in the `CloseRequested` handler with a stored handle (pid 4242), the
blocking HTTP shutdown send executes while the `child_handle` mutex is held
(the `if let` scrutinee's `MutexGuard` temporary lives through the body), so
the claim "the lock is never held across the blocking HTTP call or the
sleep" fails; its sleep half does hold: the 5-second grace sleep runs with
the lock released, for every handle state. -/
theorem C6_lock_held_across_http :
    (⟨CloseStep.httpSend 4242, true⟩ : LockedStep) ∈ closeHandlerSteps (some 4242)
    ∧ ((closeHandlerSteps (some 4242)).all
        (fun s => !s.step.isBlocking || !s.lockHeld)) = false
    ∧ ∀ (h : Option Nat),
        ((closeHandlerSteps h).all
          (fun s => !(s.step == CloseStep.sleepGrace) || !s.lockHeld)) = true := by
  refine ⟨by decide, by decide, ?_⟩
  intro h
  cases h <;> rfl

/-- C7: the `RunEvent::Exit` handler invoked when the shared handle is
already absent is a no-op: it issues no termination call (empty effect
trace — the handler has no error channel and every command failure is
discarded) and leaves the handle container unchanged, still absent. -/
theorem C7_final_cleanup_noop_when_absent :
    finalCleanup none = ⟨none, []⟩ := by
  rfl

/-- C8: startup log cleanup returns success when the logs directory does not
exist, and on an existing directory it returns success and attempts deletion
of exactly those entries that are regular files whose `Path::extension` is
`"log"` — every other entry is left in place. -/
theorem C8_log_cleanup_exact :
    cleanup_old_logs none = ⟨true, []⟩
    ∧ ∀ (entries : List DirEntry),
        (cleanup_old_logs (some entries)).ok = true
        ∧ (cleanup_old_logs (some entries)).deleted =
            (entries.filter
              (fun e => e.isFile && (rustExtension e.name == some "log"))).map
              DirEntry.name := by
  refine ⟨rfl, ?_⟩
  intro entries
  refine ⟨rfl, ?_⟩
  show cleanupLoop entries = _
  induction entries with
  | nil => rfl
  | cons e rest ih =>
    cases hf : e.isFile with
    | false => simp [cleanupLoop, hf, ih]
    | true =>
      cases hx : rustExtension e.name with
      | none => simp [cleanupLoop, hf, hx, ih]
      | some ext =>
        by_cases hl : ext = "log"
        · subst hl
          simp [cleanupLoop, hf, hx, ih]
        · simp [cleanupLoop, hf, hx, hl, ih]

/-- C9: `check_for_updates` returns exactly `"No update available."` when
the updater is acquired and the check succeeds with no update; when updater
acquisition fails or the check fails, it returns the corresponding string
error rather than succeeding. -/
theorem C9_check_for_updates_strings :
    check_for_updates (Except.ok ()) (Except.ok none) =
      Except.ok "No update available."
    ∧ (∀ (e : String) (check : Except String (Option String)),
        check_for_updates (Except.error e) check =
          Except.error ("Failed to get updater: " ++ e))
    ∧ (∀ (e : String),
        check_for_updates (Except.ok ()) (Except.error e) =
          Except.error ("Failed to check for updates: " ++ e)) := by
  exact ⟨rfl, fun e check => rfl, fun e => rfl⟩

/-- C10: on the Windows branch of `print_text`, once the print pipeline has
been invoked and reported a status, the temporary receipt file is removed
whether that status is success or not; in particular the failing print that
returns `"Silent print failed"` (status non-success) still removes it, and a
successful print returns `Ok`. -/
theorem C10_print_text_removes_temp :
    (∀ (success : Bool),
      (print_text (Except.ok ()) (Except.ok success)).tempRemoved = true)
    ∧ (print_text (Except.ok ()) (Except.ok false)).result =
        Except.error "Silent print failed"
    ∧ (print_text (Except.ok ()) (Except.ok true)).result = Except.ok () := by
  exact ⟨fun success => by cases success <;> rfl, rfl, rfl⟩
